import Mathlib

/-!
Shallow embedding of the voice-assistant core of the `intakeq-api-lifebac`
repository: the intent classifier and parameter extractor
(`src/voice/command-processor.ts`) and the workflow orchestrator
(`src/voice/voice-assistant-api.ts`).

JavaScript strings are modelled as Lean `String`; `toLowerCase`, `trim` and
`includes` are modelled character-wise.  JavaScript `Number` conversion is
modelled as `Option Int` with `none` playing the role of `NaN` (comparisons
against `NaN` are `false`).  The directory collaborator (the IntakeQ API
client) and the JS platform functions (`new Date(string)` parsing, locale
formatting) are modelled as an explicit environment; collaborator failures
are `Except.error`, caught exactly where the source has `try`/`catch`.
Mutating collaborator calls are recorded in an explicit trace.
-/

/-- JS whitespace for `trim` (the common ASCII whitespace characters). -/
def jsWS (c : Char) : Bool :=
  c == ' ' || c == '\t' || c == '\n' || c == '\r' || c == '\x0b' || c == '\x0c'

/-- Model of `String.prototype.toLowerCase` (character-wise). -/
def jsLower (s : String) : String := String.mk (s.data.map Char.toLower)

/-- Model of `String.prototype.trim`. -/
def jsTrim (s : String) : String :=
  String.mk (((s.data.dropWhile jsWS).reverse.dropWhile jsWS).reverse)

/-- `needle` is a prefix of the first list. -/
def hasPrefixL : List Char → List Char → Bool
  | _, [] => true
  | [], _ :: _ => false
  | a :: as, b :: bs => a == b && hasPrefixL as bs

/-- `containsSub hay needle`: `needle` occurs as a contiguous substring. -/
def containsSub : List Char → List Char → Bool
  | [], needle => needle.isEmpty
  | h :: t, needle => hasPrefixL (h :: t) needle || containsSub t needle

/-- Model of `String.prototype.includes`. -/
def strIncludes (s pat : String) : Bool := containsSub s.data pat.data

/-- Digits of a list of characters interpreted in decimal, `none` unless the
list is non-empty and all digits. -/
def digitsToNat (l : List Char) : Option Nat :=
  if l.isEmpty then none
  else if l.all Char.isDigit then
    some (l.foldl (fun n c => n * 10 + (c.toNat - 48)) 0)
  else none

/-- Model of JS `string.split(sep)` for a one-character separator. -/
def splitCh (c : Char) : List Char → List (List Char)
  | [] => [[]]
  | a :: t =>
    let r := splitCh c t
    if a == c then [] :: r
    else
      match r with
      | [] => [[a]]
      | h :: t' => (a :: h) :: t'

/-- Model of JS `Number(string)` restricted to the shapes that occur here:
empty/whitespace is `0`, a digit string is its value, anything else `NaN`
(= `none`). -/
def jsNumberL (l : List Char) : Option Int :=
  let t := ((l.dropWhile jsWS).reverse.dropWhile jsWS).reverse
  if t.isEmpty then some 0
  else match digitsToNat t with
    | some n => some (n : Int)
    | none => none

/-- Model of reading component `i` of `s.split(':').map(Number)`; a missing
component is `undefined`, whose arithmetic use gives `NaN` (= `none`). -/
def hhmmPart (s : String) (i : Nat) : Option Int :=
  match (splitCh ':' s.data).get? i with
  | none => none
  | some p => jsNumberL p

/-- `startHour * 60 + startMin` of an `"HH:MM"` configuration string, `none`
when either component is `NaN`. -/
def hhmmMinutes (s : String) : Option Int :=
  match hhmmPart s 0, hhmmPart s 1 with
  | some h, some m => some (h * 60 + m)
  | _, _ => none

/-- `VoiceConfig.businessHours` (`src/voice/interfaces.ts`). -/
structure BusinessHours where
  start : String
  «end» : String
  days : List Nat
deriving DecidableEq

/-- `VoiceConfig` after the constructor of `VoiceAssistantApi` has merged in
the default business hours (`src/voice/voice-assistant-api.ts`, lines 19-31). -/
structure VoiceConfig where
  defaultPractitionerEmail : Option String := none
  defaultServiceId : Option String := none
  defaultLocationId : Option Nat := none
  businessHours : BusinessHours := ⟨"09:00", "17:00", [1, 2, 3, 4, 5]⟩
  transferNumber : Option String := none
deriving DecidableEq

/-- The face a JS `Date` shows to this code: `getDay()`, `getHours()`,
`getMinutes()` and the date part of `toISOString()`. -/
structure JSDate where
  weekday : Nat
  hours : Nat
  minutes : Nat
  isoDate : String
deriving DecidableEq

/-- Model of `Date.prototype.setHours(h, m, 0, 0)`. -/
def setHM (d : JSDate) (h m : Nat) : JSDate :=
  { d with hours := h, minutes := m }

/-- `VoiceAssistantApi.isBusinessHours` (voice-assistant-api.ts, 460-476). -/
def isBusinessHours (cfg : VoiceConfig) (date : JSDate) : Bool :=
  let timeInMinutes : Int := date.hours * 60 + date.minutes
  let startTime := hhmmMinutes cfg.businessHours.start
  let endTime := hhmmMinutes cfg.businessHours.«end»
  cfg.businessHours.days.contains date.weekday &&
    (match startTime with | some st => decide (st ≤ timeInMinutes) | none => false) &&
    (match endTime with | some en => decide (timeInMinutes < en) | none => false)

/-- One spoken-out character group: `"xyz".split('').join(' ')`. -/
def spaceOut (l : List Char) : String :=
  String.intercalate " " (l.map fun c => String.mk [c])

/-- `VoiceAssistantApi.formatPhoneForSpeech` (voice-assistant-api.ts, 484-491). -/
def formatPhoneForSpeech (phone : String) : String :=
  let cleaned := phone.data.filter Char.isDigit
  if cleaned.length == 10 then
    spaceOut (cleaned.take 3) ++ ", " ++ spaceOut ((cleaned.drop 3).take 3) ++
      ", " ++ spaceOut ((cleaned.drop 6).take 4)
  else
    spaceOut phone.data

/-- The claim's reading of the fallback branch of `formatPhoneForSpeech`:
speak every digit of the input (digits only), no grouping. -/
def claimPhoneFormat (phone : String) : String :=
  let digits := phone.data.filter Char.isDigit
  if digits.length == 10 then
    spaceOut (digits.take 3) ++ ", " ++ spaceOut ((digits.drop 3).take 3) ++
      ", " ++ spaceOut ((digits.drop 6).take 4)
  else
    spaceOut digits

/-- The phone rendering as the code actually behaves, phrased after the
amended claim: exactly 10 digits → the digits grouped 3-3-4, each group
spoken digit by digit, groups separated by `", "`; otherwise every
*character* of the input spoken individually, no grouping. -/
def amendedPhoneFormat (phone : String) : String :=
  let digits := phone.data.filter Char.isDigit
  if digits.length = 10 then
    String.intercalate ", "
      [spaceOut (digits.take 3), spaceOut ((digits.take 6).drop 3), spaceOut (digits.drop 6)]
  else
    String.intercalate " " (phone.data.map fun c => String.mk [c])

/-! ### A small backtracking regular-expression engine

The parameter extractors of `CommandProcessor` use JavaScript regex
literals.  We embed them as ASTs and run a fuel-bounded backtracking
matcher with JavaScript semantics: ordered alternation, greedy and lazy
quantifiers, numbered capture groups, leftmost match.  All texts the
extractors receive are already lowercased by their callers, so the `i`
flags on the source literals are immaterial. -/

/-- Capture environment: group number to captured characters. -/
def Caps : Type := Nat → Option (List Char)

/-- Regex AST: empty, single-character class, concatenation, ordered
alternation, star (greedy or lazy), option (greedy or lazy), capture group. -/
inductive RE where
  | eps : RE
  | cls (p : Char → Bool) : RE
  | seq (a b : RE) : RE
  | alt (a b : RE) : RE
  | star (r : RE) (lzy : Bool) : RE
  | opt (r : RE) (lzy : Bool) : RE
  | group (n : Nat) (r : RE) : RE

/-- Backtracking matcher in continuation-passing style.  The continuation
receives the remaining input and the captures of the branch that reached it;
`none` makes the engine backtrack.  Fuel bounds recursion depth. -/
def reMatch : Nat → RE → List Char → Caps →
    (List Char → Caps → Option (List Char × Caps)) → Option (List Char × Caps)
  | 0, _, _, _, _ => none
  | _ + 1, .eps, s, caps, k => k s caps
  | _ + 1, .cls p, s, caps, k =>
    match s with
    | [] => none
    | c :: rest => if p c then k rest caps else none
  | fuel + 1, .seq a b, s, caps, k =>
    reMatch fuel a s caps fun s' c' => reMatch fuel b s' c' k
  | fuel + 1, .alt a b, s, caps, k =>
    match reMatch fuel a s caps k with
    | some res => some res
    | none => reMatch fuel b s caps k
  | fuel + 1, .star r lz, s, caps, k =>
    if lz then
      match k s caps with
      | some res => some res
      | none => reMatch fuel r s caps fun s' c' => reMatch fuel (.star r lz) s' c' k
    else
      match reMatch fuel r s caps (fun s' c' => reMatch fuel (.star r lz) s' c' k) with
      | some res => some res
      | none => k s caps
  | fuel + 1, .opt r lz, s, caps, k =>
    if lz then
      match k s caps with
      | some res => some res
      | none => reMatch fuel r s caps k
    else
      match reMatch fuel r s caps k with
      | some res => some res
      | none => k s caps
  | fuel + 1, .group n r, s, caps, k =>
    reMatch fuel r s caps fun s' c' =>
      k s' fun i => if i == n then some (s.take (s.length - s'.length)) else c' i

/-- Try to match `r` at the start of `s`; on success return the consumed
prefix (JS `match[0]`) and the captures. -/
def tryAt (fuel : Nat) (r : RE) (s : List Char) : Option (List Char × Caps) :=
  match reMatch fuel r s (fun _ => none) (fun rest caps => some (rest, caps)) with
  | some (rest, caps) => some (s.take (s.length - rest.length), caps)
  | none => none

/-- Leftmost match: try each start position left to right. -/
def reFirstMatch (fuel : Nat) (r : RE) : List Char → Option (List Char × Caps)
  | [] => tryAt fuel r []
  | c :: t =>
    match tryAt fuel r (c :: t) with
    | some res => some res
    | none => reFirstMatch fuel r t

/-- The result of JS `string.match(re)` as this code uses it. -/
structure MatchResult where
  whole : String
  group : Nat → Option String

/-- Model of `text.match(re)` (first match, no `g` flag). -/
def matchRE (r : RE) (s : String) : Option MatchResult :=
  match reFirstMatch (1000 * (s.length + 2)) r s.data with
  | some (m, caps) => some ⟨String.mk m, fun i => (caps i).map String.mk⟩
  | none => none

/-! Character classes and the concrete patterns of the source. -/

/-- `[A-Za-z]` as a `Bool` predicate. -/
def isAlphaB (c : Char) : Bool := ('a' ≤ c && c ≤ 'z') || ('A' ≤ c && c ≤ 'Z')

/-- A single literal character. -/
def chr (c : Char) : RE := .cls fun d => d == c

/-- A literal string. -/
def lit (s : String) : RE := s.data.foldr (fun c r => .seq (chr c) r) .eps

/-- `[A-Za-z]` -/
def alphaC : RE := .cls isAlphaB

/-- `\d` -/
def digitC : RE := .cls Char.isDigit

/-- `\s` -/
def wsC : RE := .cls jsWS

/-- `\w` = `[A-Za-z0-9_]` -/
def wordC : RE := .cls fun c => isAlphaB c || Char.isDigit c || c == '_'

/-- Greedy `r+`. -/
def rePlus (r : RE) : RE := .seq r (.star r false)

/-- Lazy `r+?`. -/
def rePlusLazy (r : RE) : RE := .seq r (.star r true)

/-- `\s+` -/
def wsp : RE := rePlus wsC

/-- `[A-Za-z]+(?:\s+[A-Za-z]+)*` with the star greedy or lazy. -/
def nameSeq (lz : Bool) : RE := .seq (rePlus alphaC) (.star (.seq wsp (rePlus alphaC)) lz)

/-- `/(?:for|schedule|book)\s+([A-Za-z]+(?:\s+[A-Za-z]+)*?)(?:\s+(?:at|on|for|tomorrow|today))/i` -/
def schedName1 : RE :=
  .seq (.alt (lit "for") (.alt (lit "schedule") (lit "book")))
    (.seq wsp
      (.seq (.group 1 (nameSeq true))
        (.seq wsp
          (.alt (lit "at") (.alt (lit "on") (.alt (lit "for") (.alt (lit "tomorrow") (lit "today"))))))))

/-- `/schedule\s+([A-Za-z]+(?:\s+[A-Za-z]+)*)/i` -/
def schedName2 : RE := .seq (lit "schedule") (.seq wsp (.group 1 (nameSeq false)))

/-- `/(?:for|appointment for)\s+([^at|on]+?)(?:\s+(?:at|on|with))/i` -/
def serviceRe : RE :=
  .seq (.alt (lit "for") (lit "appointment for"))
    (.seq wsp
      (.seq (.group 1 (rePlusLazy (.cls fun c => !(c == 'a' || c == 't' || c == '|' || c == 'o' || c == 'n'))))
        (.seq wsp (.alt (lit "at") (.alt (lit "on") (lit "with"))))))

/-- `/(?:cancel|delete)\s+(?:appointment\s+)?(?:for\s+)?([A-Za-z]+(?:\s+[A-Za-z]+)*)/i` -/
def cancelName : RE :=
  .seq (.alt (lit "cancel") (lit "delete"))
    (.seq wsp
      (.seq (.opt (.seq (lit "appointment") wsp) false)
        (.seq (.opt (.seq (lit "for") wsp) false)
          (.group 1 (nameSeq false)))))

/-- `/appointment\s+(?:id\s+)?([A-Za-z0-9-]+)/i` -/
def apptIdRe : RE :=
  .seq (lit "appointment")
    (.seq wsp
      (.seq (.opt (.seq (lit "id") wsp) false)
        (.group 1 (rePlus (.cls fun c => isAlphaB c || Char.isDigit c || c == '-')))))

/-- `/(?:find|look up|search for|client)\s+([A-Za-z]+(?:\s+[A-Za-z]+)*)/i` -/
def clientName1 : RE :=
  .seq (.alt (lit "find") (.alt (lit "look up") (.alt (lit "search for") (lit "client"))))
    (.seq wsp (.group 1 (nameSeq false)))

/-- `/([A-Za-z]+(?:\s+[A-Za-z]+)*?)(?:\s+client)/i` -/
def clientName2 : RE := .seq (.group 1 (nameSeq true)) (.seq wsp (lit "client"))

/-- `/([a-zA-Z0-9._%+-]+@[a-zA-Z0-9.-]+\.[a-zA-Z]{2,})/` -/
def emailRe : RE :=
  .group 1
    (.seq (rePlus (.cls fun c => isAlphaB c || Char.isDigit c || c == '.' || c == '_' || c == '%' || c == '+' || c == '-'))
      (.seq (chr '@')
        (.seq (rePlus (.cls fun c => isAlphaB c || Char.isDigit c || c == '.' || c == '-'))
          (.seq (chr '.') (.seq alphaC (rePlus alphaC))))))

/-- `/(?:intake|form|questionnaire)\s+([A-Za-z]+(?:\s+[A-Za-z]+)*)/i` -/
def formRe : RE :=
  .seq (.alt (lit "intake") (.alt (lit "form") (lit "questionnaire")))
    (.seq wsp (.group 1 (nameSeq false)))

/-- `\d{1,2}` -/
def d12 : RE := .seq digitC (.opt digitC false)

/-- `/(?:at\s+)?(\d{1,2}(?::\d{2})?\s*(?:am|pm))/i` -/
def dt3 : RE :=
  .seq (.opt (.seq (lit "at") wsp) false)
    (.group 1
      (.seq d12
        (.seq (.opt (.seq (chr ':') (.seq digitC digitC)) false)
          (.seq (.star wsC false) (.alt (lit "am") (lit "pm"))))))

/-- `/(?:on\s+)?(\w+day)/i` -/
def dt4 : RE :=
  .seq (.opt (.seq (lit "on") wsp) false) (.group 1 (.seq (rePlus wordC) (lit "day")))

/-- `/(\d{1,2}\/\d{1,2}(?:\/\d{2,4})?)/` -/
def dt5 : RE :=
  .group 1
    (.seq d12
      (.seq (chr '/')
        (.seq d12
          (.opt (.seq (chr '/') (.seq digitC (.seq digitC (.seq (.opt digitC false) (.opt digitC false))))) false))))

/-- `/(\w+\s+\d{1,2}(?:st|nd|rd|th)?)/i` -/
def dt6 : RE :=
  .group 1
    (.seq (rePlus wordC)
      (.seq wsp
        (.seq d12 (.opt (.alt (lit "st") (.alt (lit "nd") (.alt (lit "rd") (lit "th")))) false))))

/-- `/(\d{1,2})(?::(\d{2}))?\s*(am|pm)?/i` (the time regex of `extractTime`). -/
def timeRe : RE :=
  .seq (.group 1 d12)
    (.seq (.opt (.seq (chr ':') (.group 2 (.seq digitC digitC))) false)
      (.seq (.star wsC false) (.opt (.group 3 (.alt (lit "am") (lit "pm"))) false)))

/-! ### Intent data model (`src/voice/interfaces.ts`) -/

/-- `CommandIntent.action` (the string union of interfaces.ts). -/
inductive CmdAction where
  | SCHEDULE_APPOINTMENT
  | CANCEL_APPOINTMENT
  | RESCHEDULE_APPOINTMENT
  | FIND_CLIENT
  | CHECK_APPOINTMENTS
  | SEND_INTAKE_FORM
  | CHECK_INTAKE_STATUS
  | GET_CLIENT_INFO
  | UPDATE_CLIENT_INFO
  | CHECK_AVAILABILITY
  | UNKNOWN
deriving DecidableEq

/-- `CommandIntent.params`: the slots actually read or written by the code;
`none` models an absent (`undefined`) slot. -/
structure Params where
  clientName : Option String := none
  clientEmail : Option String := none
  practitionerName : Option String := none
  appointmentId : Option String := none
  dateTime : Option String := none
  date : Option String := none
  serviceName : Option String := none
deriving DecidableEq

/-- `CommandIntent` (interfaces.ts). -/
structure CommandIntent where
  action : CmdAction
  params : Params
  confidence : Rat
deriving DecidableEq

/-- JS truthiness of a `string | undefined` value (`undefined` and `""` are
falsy). -/
def truthyStr : Option String → Bool
  | none => false
  | some s => !s.data.isEmpty

/-- `CommandProcessor.matchesPatterns` (command-processor.ts, 414-416). -/
def matchesPatterns (text : String) (patterns : List String) : Bool :=
  patterns.any fun pattern => strIncludes text pattern

/-- `CommandProcessor.calculateConfidence` (command-processor.ts, 418-421). -/
def calculateConfidence (text : String) (keywords : List String) : Rat :=
  let matched := (keywords.filter fun keyword => strIncludes text keyword).length
  min ((matched : Rat) / (keywords.length : Rat)) 1

/-- First pattern of the list that matches, returning JS `match[0]`. -/
def firstWhole (ps : List RE) (text : String) : Option String :=
  match ps with
  | [] => none
  | p :: rest =>
    match matchRE p text with
    | some m => some m.whole
    | none => firstWhole rest text

/-- `CommandProcessor.extractDateTime` (command-processor.ts, 423-442): the
ordered date/time patterns, first match returns the matched substring. -/
def extractDateTime (text : String) : Option String :=
  firstWhole [lit "today", lit "tomorrow", dt3, dt4, dt5, dt6] text

/-- `CommandProcessor.extractScheduleParams` (command-processor.ts, 304-331). -/
def extractScheduleParams (text : String) : Params :=
  let clientName :=
    match matchRE schedName1 text with
    | some m => (m.group 1).map jsTrim
    | none =>
      match matchRE schedName2 text with
      | some m => (m.group 1).map jsTrim
      | none => none
  let serviceName := (matchRE serviceRe text).bind fun m => (m.group 1).map jsTrim
  { clientName := clientName, dateTime := extractDateTime text, serviceName := serviceName }

/-- `CommandProcessor.extractCancelParams` (command-processor.ts, 333-349). -/
def extractCancelParams (text : String) : Params :=
  let clientName := (matchRE cancelName text).bind fun m => (m.group 1).map jsTrim
  let appointmentId := (matchRE apptIdRe text).bind fun m => m.group 1
  { clientName := clientName, appointmentId := appointmentId }

/-- `CommandProcessor.extractRescheduleParams` (command-processor.ts, 351-354). -/
def extractRescheduleParams (text : String) : Params :=
  extractCancelParams text

/-- `CommandProcessor.extractClientParams` (command-processor.ts, 356-380). -/
def extractClientParams (text : String) : Params :=
  let clientName :=
    match matchRE clientName1 text with
    | some m => (m.group 1).map jsTrim
    | none =>
      match matchRE clientName2 text with
      | some m => (m.group 1).map jsTrim
      | none => none
  let clientEmail := (matchRE emailRe text).bind fun m => m.group 1
  { clientName := clientName, clientEmail := clientEmail }

/-- `CommandProcessor.extractDateParams` (command-processor.ts, 382-386). -/
def extractDateParams (text : String) : Params :=
  { date := extractDateTime text }

/-- `CommandProcessor.extractIntakeParams` (command-processor.ts, 388-404). -/
def extractIntakeParams (text : String) : Params :=
  let clientEmail := (matchRE emailRe text).bind fun m => m.group 1
  let serviceName := (matchRE formRe text).bind fun m => (m.group 1).map jsTrim
  { clientEmail := clientEmail, serviceName := serviceName }

/-- `CommandProcessor.extractAvailabilityParams` (command-processor.ts, 406-410). -/
def extractAvailabilityParams (text : String) : Params :=
  { date := extractDateTime text }

/-- `CommandProcessor.extractIntent` (command-processor.ts, 49-157): the
ordered cascade of trigger-phrase checks. -/
def extractIntent (transcript : String) : CommandIntent :=
  let text := jsTrim (jsLower transcript)
  if matchesPatterns text ["schedule", "book", "make an appointment", "set up", "arrange"] then
    { action := .SCHEDULE_APPOINTMENT, params := extractScheduleParams text,
      confidence := calculateConfidence text ["schedule", "appointment"] }
  else if matchesPatterns text ["cancel", "delete", "remove", "cancel appointment"] then
    { action := .CANCEL_APPOINTMENT, params := extractCancelParams text,
      confidence := calculateConfidence text ["cancel"] }
  else if matchesPatterns text ["reschedule", "move", "change", "reschedule appointment"] then
    { action := .RESCHEDULE_APPOINTMENT, params := extractRescheduleParams text,
      confidence := calculateConfidence text ["reschedule", "move"] }
  else if matchesPatterns text ["find", "look up", "search for", "find client", "look for"] then
    { action := .FIND_CLIENT, params := extractClientParams text,
      confidence := calculateConfidence text ["find", "client"] }
  else if matchesPatterns text ["check appointments", "show appointments", "list appointments",
      "what appointments", "appointments today", "schedule for"] then
    { action := .CHECK_APPOINTMENTS, params := extractDateParams text,
      confidence := calculateConfidence text ["appointments", "schedule"] }
  else if matchesPatterns text ["send form", "intake form", "send intake", "questionnaire"] then
    { action := .SEND_INTAKE_FORM, params := extractIntakeParams text,
      confidence := calculateConfidence text ["intake", "form"] }
  else if matchesPatterns text ["check intake", "intake status", "form status", "completed form"] then
    { action := .CHECK_INTAKE_STATUS, params := extractClientParams text,
      confidence := calculateConfidence text ["intake", "status"] }
  else if matchesPatterns text ["client info", "client information", "tell me about", "client details"] then
    { action := .GET_CLIENT_INFO, params := extractClientParams text,
      confidence := calculateConfidence text ["client", "info"] }
  else if matchesPatterns text ["available", "availability", "free time", "open slots"] then
    { action := .CHECK_AVAILABILITY, params := extractAvailabilityParams text,
      confidence := calculateConfidence text ["available"] }
  else
    { action := .UNKNOWN, params := {}, confidence := 0 }

/-! ### Domain records and the collaborator environment

Records carry the fields this code reads (`src/appointment/interfaces.ts`
shapes, as used here).  The `Env` bundles the directory collaborator
(errors as `Except.error`, caught where the source catches) and the JS
platform: the current instant, `new Date(string)` parsing and locale
rendering. -/

/-- A client record, as read by the orchestrator. -/
structure Client where
  ClientId : Nat
  Name : String
  Email : String
  Phone : Option String := none
deriving DecidableEq

/-- An appointment record, as read by the orchestrator. -/
structure Appointment where
  Id : String
  ClientId : Nat
  ClientName : String
  PractitionerName : String
  StartDate : Int
  StartDateIso : String
  Status : String
deriving DecidableEq

/-- A practitioner from the scheduling settings. -/
structure Practitioner where
  Id : String
  Email : String
  CompleteName : String
deriving DecidableEq

/-- A service from the scheduling settings. -/
structure Service where
  Id : String
  Name : String
deriving DecidableEq

/-- A location from the scheduling settings. -/
structure LocationRec where
  Id : Nat
deriving DecidableEq

/-- `getSettings()` payload. -/
structure ApptSettings where
  Practitioners : List Practitioner
  Services : List Service
  Locations : List LocationRec
deriving DecidableEq

/-- A questionnaire template. -/
structure Questionnaire where
  Id : String
  Name : String
deriving DecidableEq

/-- The record returned by `sendQuestionnaire`. -/
structure IntakeRecord where
  Id : String
deriving DecidableEq

/-- The query object passed to `Appointment.list`. -/
structure ApptQuery where
  startDate : String
  endDate : String
  status : Option String := none
deriving DecidableEq

/-- `CreateAppointmentRequest` as built by `scheduleAppointment`. -/
structure CreateAppointmentRequest where
  ClientId : Nat
  PractitionerId : String
  ServiceId : String
  LocationId : Nat
  UtcDateTime : Int
  Status : String
  SendClientEmailNotification : Bool
  ReminderType : String
deriving DecidableEq

/-- The request passed to `sendQuestionnaire`. -/
structure SendQuestionnaireRequest where
  ClientId : Nat
  QuestionnaireId : String
  PractitionerId : String
deriving DecidableEq

/-- The collaborator and platform environment of one invocation. -/
structure Env where
  now : JSDate
  plus30Iso : String
  nextDay : JSDate → JSDate
  jsDateParse : String → Option JSDate
  getTimeSec : JSDate → Int
  localeDateTime : String → String
  localeTime : String → String
  listClients : String → Except Unit (List Client)
  getClientByEmail : String → Except Unit (Option Client)
  listAppointments : ApptQuery → Except Unit (List Appointment)
  getAppointment : String → Except Unit (Option Appointment)
  createAppointment : CreateAppointmentRequest → Except Unit Appointment
  cancelAppointment : String → Option String → Except Unit Unit
  getSettings : Except Unit ApptSettings
  listQuestionnaireTemplates : Except Unit (List Questionnaire)
  listPractitioners : Except Unit (List Practitioner)
  sendQuestionnaire : SendQuestionnaireRequest → Except Unit IntakeRecord

/-- The structured `data` payloads attached to responses. -/
inductive RespData where
  | clientFound (client : Client) (nextAppointment : Option Appointment)
  | «matches» (clients : List Client)
  | scheduled (appointment : Appointment) (client : Client)
      (practitioner : Practitioner) (service : Service)
  | appointments (appts : List Appointment)
  | canceled (appointment : Appointment)
  | intakeSent (intake : IntakeRecord) (client : Client) (questionnaire : Questionnaire)
deriving DecidableEq

/-- `VoiceResponse` (interfaces.ts); `endCall` is never set by the modelled
code and is omitted. -/
structure VoiceResponse where
  message : String
  success : Bool
  transferNumber : Option String := none
  data : Option RespData := none
deriving DecidableEq

/-- A mutating collaborator call, recorded in the trace of an invocation. -/
inductive MutCall where
  | createAppointment (req : CreateAppointmentRequest)
  | cancelAppointment (id : String) (reason : Option String)
  | sendQuestionnaire (req : SendQuestionnaireRequest)
deriving DecidableEq

/-- `VoiceAssistantApi.formatDateForSpeech` (voice-assistant-api.ts, 493-504):
`new Date(dateStr).toLocaleDateString('en-US', ...)`, a platform rendering. -/
def formatDateForSpeech (env : Env) (dateStr : String) : String :=
  env.localeDateTime dateStr

/-- `VoiceAssistantApi.formatTimeForSpeech` (voice-assistant-api.ts, 506-513). -/
def formatTimeForSpeech (env : Env) (dateStr : String) : String :=
  env.localeTime dateStr

/-- `VoiceAssistantApi.extractTime` (voice-assistant-api.ts, 439-458). -/
def extractTime (str : String) : Option (Nat × Nat) :=
  match matchRE timeRe str with
  | none => none
  | some m =>
    match m.group 1 with
    | none => none
    | some g1 =>
      let hours := (digitsToNat g1.data).getD 0
      let minutes := (digitsToNat ((m.group 2).getD "0").data).getD 0
      let hours :=
        match m.group 3 with
        | some ampm =>
          if ampm == "pm" && hours != 12 then hours + 12
          else if ampm == "am" && hours == 12 then 0
          else hours
        | none => hours
      some (hours, minutes)

/-- `VoiceAssistantApi.parseDateTime` (voice-assistant-api.ts, 400-437):
"tomorrow"/"today" with an explicit time, else the platform date parser
(`new Date(string)`, `none` = Invalid Date). -/
def parseDateTime (env : Env) (dateTimeStr : String) : Option JSDate :=
  let str := jsLower dateTimeStr
  let tomorrowRes : Option JSDate :=
    if strIncludes str "tomorrow" then
      (extractTime str).map fun t => setHM (env.nextDay env.now) t.1 t.2
    else none
  match tomorrowRes with
  | some d => some d
  | none =>
    let todayRes : Option JSDate :=
      if strIncludes str "today" then
        (extractTime str).map fun t => setHM env.now t.1 t.2
      else none
    match todayRes with
    | some d => some d
    | none => env.jsDateParse dateTimeStr

/-- `VoiceAssistantApi.getBusinessHoursText` (voice-assistant-api.ts, 478-482). -/
def getBusinessHoursText (cfg : VoiceConfig) : String :=
  let days := ["Sunday", "Monday", "Tuesday", "Wednesday", "Thursday", "Friday", "Saturday"]
  let dayNames := String.intercalate " through "
    (cfg.businessHours.days.map fun d => ((days.get? d).getD ""))
  dayNames ++ " from " ++ cfg.businessHours.start ++ " to " ++ cfg.businessHours.«end»

/-- Comparison used by the `a.StartDate - b.StartDate` sort comparators. -/
def startLE (a b : Appointment) : Bool := decide (a.StartDate ≤ b.StartDate)

/-- JS `Array.prototype.sort` with the start-date comparator (stable). -/
def sortByStart (l : List Appointment) : List Appointment := l.mergeSort startLE

/-- `VoiceAssistantApi.getNextClientAppointment` (voice-assistant-api.ts,
383-398): next 30 days, confirmed, soonest first; its own `catch` gives
`null`. -/
def getNextClientAppointment (env : Env) (clientId : Nat) : Option Appointment :=
  match env.listAppointments ⟨env.now.isoDate, env.plus30Iso, none⟩ with
  | .error _ => none
  | .ok appointments =>
    let clientAppointments :=
      sortByStart (appointments.filter fun apt =>
        apt.ClientId == clientId && apt.Status == "Confirmed")
    clientAppointments.head?

/-- JS `this.config.defaultLocationId || settings.Locations[0]?.Id || 1`
(`undefined` and `0` are falsy). -/
def locationIdOf (cfg : VoiceConfig) (settings : ApptSettings) : Nat :=
  let fallback :=
    match settings.Locations.head? with
    | some l => if l.Id != 0 then l.Id else 1
    | none => 1
  match cfg.defaultLocationId with
  | some n => if n != 0 then n else fallback
  | none => fallback

/-! ### The workflow orchestrator (`VoiceAssistantApi`)

Each operation returns the produced `VoiceResponse` together with the trace
of mutating collaborator calls it issued. -/

/-- `VoiceAssistantApi.findClientByName` (voice-assistant-api.ts, 36-83). -/
def findClientByName (env : Env) (cfg : VoiceConfig) (name : String) :
    VoiceResponse × List MutCall :=
  match env.listClients name with
  | .error _ =>
    ({ message := "I'm sorry, I encountered an error while searching for that client. Please try again.",
       success := false }, [])
  | .ok clients =>
    match clients with
    | [] =>
      ({ message := "I couldn't find any clients named " ++ name ++
           ". Could you please spell the name or provide their email address?",
         success := false }, [])
    | [client] =>
      let nextAppointment := getNextClientAppointment env client.ClientId
      let message := "Found " ++ client.Name ++ ". Their email is " ++ client.Email
      let message :=
        if truthyStr client.Phone then
          message ++ " and phone number is " ++ formatPhoneForSpeech (client.Phone.getD "")
        else message
      let message :=
        match nextAppointment with
        | some apt =>
          message ++ ". Their next appointment is " ++ formatDateForSpeech env apt.StartDateIso
        | none => message
      ({ message := message, success := true,
         data := some (.clientFound client nextAppointment) }, [])
    | c1 :: c2 :: rest =>
      let names := String.intercalate ", " (((c1 :: c2 :: rest).take 3).map (·.Name))
      ({ message := "I found " ++ toString (c1 :: c2 :: rest).length ++
           " clients with that name: " ++ names ++
           ". Could you be more specific or provide their email address?",
         success := false, data := some (.«matches» (c1 :: c2 :: rest)) }, [])

/-- `VoiceAssistantApi.findClientByEmail` (voice-assistant-api.ts, 88-118). -/
def findClientByEmail (env : Env) (cfg : VoiceConfig) (email : String) :
    VoiceResponse × List MutCall :=
  match env.getClientByEmail email with
  | .error _ =>
    ({ message := "I couldn't find a client with email " ++ email ++
         ". Would you like me to create a new client record?",
       success := false }, [])
  | .ok none =>
    ({ message := "I couldn't find a client with email " ++ email ++
         ". Would you like me to create a new client record?",
       success := false }, [])
  | .ok (some client) =>
    let nextAppointment := getNextClientAppointment env client.ClientId
    let message := "Found " ++ client.Name ++ " with email " ++ email
    let message :=
      match nextAppointment with
      | some apt =>
        message ++ ". Their next appointment is " ++ formatDateForSpeech env apt.StartDateIso
      | none => message
    ({ message := message, success := true,
       data := some (.clientFound client nextAppointment) }, [])

/-- `VoiceAssistantApi.scheduleAppointment` (voice-assistant-api.ts, 123-227). -/
def scheduleAppointment (env : Env) (cfg : VoiceConfig) (clientName : String)
    (dateTimeStr : String) (serviceName : Option String)
    (practitionerEmail : Option String) : VoiceResponse × List MutCall :=
  let catchResp : VoiceResponse :=
    { message := "I'm sorry, I couldn't schedule that appointment. Let me transfer you to someone who can help.",
      success := false, transferNumber := cfg.transferNumber }
  match env.listClients clientName with
  | .error _ => (catchResp, [])
  | .ok clients =>
    match clients with
    | [] =>
      ({ message := "I couldn't find a client named " ++ clientName ++
           ". Would you like me to create a new client record first?",
         success := false }, [])
    | [client] =>
      match parseDateTime env dateTimeStr with
      | none =>
        ({ message := "I couldn't understand that date and time. Could you please say it in a format like 'tomorrow at 3 PM' or 'December 15th at 10:30 AM'?",
           success := false }, [])
      | some appointmentDate =>
        if !isBusinessHours cfg appointmentDate then
          ({ message := "That time is outside our business hours. We're open " ++
               getBusinessHoursText cfg ++ ". Please choose a different time.",
             success := false }, [])
        else
          match env.getSettings with
          | .error _ => (catchResp, [])
          | .ok settings =>
            let practitioner? :=
              if truthyStr practitionerEmail then
                settings.Practitioners.find? fun p => p.Email == practitionerEmail.getD ""
              else if truthyStr cfg.defaultPractitionerEmail then
                settings.Practitioners.find? fun p => p.Email == cfg.defaultPractitionerEmail.getD ""
              else settings.Practitioners.head?
            match practitioner? with
            | none =>
              ({ message := "I couldn't find an available practitioner. Please contact our office directly.",
                 success := false, transferNumber := cfg.transferNumber }, [])
            | some practitioner =>
              let service? :=
                if truthyStr serviceName then
                  settings.Services.find? fun s =>
                    strIncludes (jsLower s.Name) (jsLower (serviceName.getD ""))
                else if truthyStr cfg.defaultServiceId then
                  settings.Services.find? fun s => s.Id == cfg.defaultServiceId.getD ""
                else settings.Services.head?
              match service? with
              | none =>
                ({ message := "I couldn't find that service. Let me transfer you to someone who can help schedule that appointment.",
                   success := false, transferNumber := cfg.transferNumber }, [])
              | some service =>
                let appointmentRequest : CreateAppointmentRequest :=
                  { ClientId := client.ClientId
                    PractitionerId := practitioner.Id
                    ServiceId := service.Id
                    LocationId := locationIdOf cfg settings
                    UtcDateTime := env.getTimeSec appointmentDate
                    Status := "WaitingConfirmation"
                    SendClientEmailNotification := true
                    ReminderType := "Email" }
                match env.createAppointment appointmentRequest with
                | .error _ => (catchResp, [MutCall.createAppointment appointmentRequest])
                | .ok appointment =>
                  ({ message := "Great! I've scheduled " ++ client.Name ++ " for " ++
                       service.Name ++ " with " ++ practitioner.CompleteName ++ " on " ++
                       formatDateForSpeech env appointment.StartDateIso ++
                       ". A confirmation email will be sent to " ++ client.Email ++ ".",
                     success := true,
                     data := some (.scheduled appointment client practitioner service) },
                   [MutCall.createAppointment appointmentRequest])
    | c1 :: c2 :: rest =>
      let names := String.intercalate ", " (((c1 :: c2 :: rest).take 3).map (·.Name))
      ({ message := "I found multiple clients: " ++ names ++
           ". Could you be more specific or provide their email?",
         success := false }, [])

/-- `VoiceAssistantApi.getUpcomingAppointments` (voice-assistant-api.ts,
232-274).  An unparsable explicit date makes `toISOString` throw, landing in
the same `catch`. -/
def getUpcomingAppointments (env : Env) (cfg : VoiceConfig) (date : Option String) :
    VoiceResponse × List MutCall :=
  let catchResp : VoiceResponse :=
    { message := "I'm sorry, I couldn't retrieve the appointment schedule right now. Please try again.",
      success := false }
  let targetDate? : Option JSDate :=
    if truthyStr date then env.jsDateParse (date.getD "") else some env.now
  match targetDate? with
  | none => (catchResp, [])
  | some targetDate =>
    let dateStr := targetDate.isoDate
    match env.listAppointments ⟨dateStr, dateStr, some "Confirmed"⟩ with
    | .error _ => (catchResp, [])
    | .ok appointments =>
      if appointments.isEmpty then
        let dayText := if truthyStr date then formatDateForSpeech env dateStr else "today"
        ({ message := "There are no confirmed appointments scheduled for " ++ dayText ++ ".",
           success := true, data := some (.appointments []) }, [])
      else
        let sorted := sortByStart appointments
        let appointmentText := String.intercalate ", "
          ((sorted.take 5).map fun apt =>
            formatTimeForSpeech env apt.StartDateIso ++ " - " ++ apt.ClientName ++
              " with " ++ apt.PractitionerName)
        let dayText := if truthyStr date then formatDateForSpeech env dateStr else "today"
        ({ message := "Here are the confirmed appointments for " ++ dayText ++ ": " ++
             appointmentText,
           success := true, data := some (.appointments sorted) }, [])

/-- `VoiceAssistantApi.cancelAppointment` (voice-assistant-api.ts, 279-305). -/
def cancelAppointment (env : Env) (cfg : VoiceConfig) (appointmentId : String)
    (reason : Option String) : VoiceResponse × List MutCall :=
  let catchResp : VoiceResponse :=
    { message := "I'm sorry, I couldn't cancel that appointment. Please try again or contact our office directly.",
      success := false, transferNumber := cfg.transferNumber }
  match env.getAppointment appointmentId with
  | .error _ => (catchResp, [])
  | .ok none =>
    ({ message := "I couldn't find that appointment. Could you provide the appointment ID or client name?",
       success := false }, [])
  | .ok (some appointment) =>
    match env.cancelAppointment appointmentId reason with
    | .error _ => (catchResp, [MutCall.cancelAppointment appointmentId reason])
    | .ok _ =>
      ({ message := "I've canceled the appointment for " ++ appointment.ClientName ++
           " on " ++ formatDateForSpeech env appointment.StartDateIso ++
           ". The client will be notified.",
         success := true, data := some (.canceled appointment) },
       [MutCall.cancelAppointment appointmentId reason])

/-- `VoiceAssistantApi.sendIntakeForm` (voice-assistant-api.ts, 310-379). -/
def sendIntakeForm (env : Env) (cfg : VoiceConfig) (clientEmail : String)
    (questionnaireName : Option String) : VoiceResponse × List MutCall :=
  let catchResp : VoiceResponse :=
    { message := "I'm sorry, I couldn't send the intake form. Please try again or contact our office.",
      success := false, transferNumber := cfg.transferNumber }
  match env.getClientByEmail clientEmail with
  | .error _ => (catchResp, [])
  | .ok none =>
    ({ message := "I couldn't find a client with email " ++ clientEmail ++
         ". Please check the email address.",
       success := false }, [])
  | .ok (some client) =>
    match env.listQuestionnaireTemplates with
    | .error _ => (catchResp, [])
    | .ok questionnaires =>
      if questionnaires.isEmpty then
        ({ message := "There are no intake forms available to send. Please contact our office.",
           success := false, transferNumber := cfg.transferNumber }, [])
      else
        let questionnaire? :=
          if truthyStr questionnaireName then
            questionnaires.find? fun q =>
              strIncludes (jsLower q.Name) (jsLower (questionnaireName.getD ""))
          else questionnaires.head?
        match questionnaire? with
        | none =>
          let availableNames := String.intercalate ", " ((questionnaires.take 3).map (·.Name))
          ({ message := "I couldn't find that intake form. Available forms include: " ++
               availableNames,
             success := false }, [])
        | some questionnaire =>
          match env.listPractitioners with
          | .error _ => (catchResp, [])
          | .ok practitioners =>
            let practitioner? :=
              if truthyStr cfg.defaultPractitionerEmail then
                practitioners.find? fun p => p.Email == cfg.defaultPractitionerEmail.getD ""
              else practitioners.head?
            match practitioner? with
            | none =>
              ({ message := "I couldn't find an available practitioner. Please contact our office.",
                 success := false, transferNumber := cfg.transferNumber }, [])
            | some practitioner =>
              let req : SendQuestionnaireRequest :=
                ⟨client.ClientId, questionnaire.Id, practitioner.Id⟩
              match env.sendQuestionnaire req with
              | .error _ => (catchResp, [MutCall.sendQuestionnaire req])
              | .ok intake =>
                ({ message := "I've sent the " ++ questionnaire.Name ++ " intake form to " ++
                     client.Name ++ " at " ++ clientEmail ++
                     ". They'll receive an email with instructions to complete it.",
                   success := true,
                   data := some (.intakeSent intake client questionnaire) },
                 [MutCall.sendQuestionnaire req])

/-! ### The command processor (`CommandProcessor`) -/

/-- `CommandProcessor.handleScheduleAppointment` (command-processor.ts, 161-179). -/
def handleScheduleAppointment (env : Env) (cfg : VoiceConfig) (intent : CommandIntent) :
    VoiceResponse × List MutCall :=
  let p := intent.params
  if !truthyStr p.clientName then
    ({ message := "I'd be happy to schedule an appointment. What's the client's name?",
       success := false }, [])
  else if !truthyStr p.dateTime then
    ({ message := "When would you like to schedule the appointment for " ++
         p.clientName.getD "" ++ "?",
       success := false }, [])
  else
    scheduleAppointment env cfg (p.clientName.getD "") (p.dateTime.getD "")
      p.serviceName p.practitionerName

/-- `CommandProcessor.handleCancelAppointment` (command-processor.ts, 181-200). -/
def handleCancelAppointment (env : Env) (cfg : VoiceConfig) (intent : CommandIntent) :
    VoiceResponse × List MutCall :=
  let p := intent.params
  if truthyStr p.appointmentId then
    cancelAppointment env cfg (p.appointmentId.getD "") none
  else if !truthyStr p.clientName && !truthyStr p.dateTime then
    ({ message := "Which appointment would you like to cancel? Please provide the client name or appointment details.",
       success := false }, [])
  else
    ({ message := "I need more specific information to cancel that appointment. Could you provide the appointment ID or have someone transfer you to our scheduling team?",
       success := false }, [])

/-- `CommandProcessor.handleRescheduleAppointment` (command-processor.ts, 202-207). -/
def handleRescheduleAppointment : VoiceResponse :=
  { message := "I can help you reschedule an appointment. Let me transfer you to our scheduling team who can find the best available time.",
    success := false }

/-- `CommandProcessor.handleFindClient` (command-processor.ts, 209-224). -/
def handleFindClient (env : Env) (cfg : VoiceConfig) (intent : CommandIntent) :
    VoiceResponse × List MutCall :=
  let p := intent.params
  if truthyStr p.clientEmail then
    findClientByEmail env cfg (p.clientEmail.getD "")
  else if truthyStr p.clientName then
    findClientByName env cfg (p.clientName.getD "")
  else
    ({ message := "I'd be happy to find a client for you. What's their name or email address?",
       success := false }, [])

/-- `CommandProcessor.handleCheckAppointments` (command-processor.ts, 226-229). -/
def handleCheckAppointments (env : Env) (cfg : VoiceConfig) (intent : CommandIntent) :
    VoiceResponse × List MutCall :=
  getUpcomingAppointments env cfg intent.params.date

/-- `CommandProcessor.handleSendIntakeForm` (command-processor.ts, 231-242). -/
def handleSendIntakeForm (env : Env) (cfg : VoiceConfig) (intent : CommandIntent) :
    VoiceResponse × List MutCall :=
  let p := intent.params
  if !truthyStr p.clientEmail then
    ({ message := "I'd be happy to send an intake form. What's the client's email address?",
       success := false }, [])
  else
    sendIntakeForm env cfg (p.clientEmail.getD "") p.serviceName

/-- `CommandProcessor.handleCheckIntakeStatus` (command-processor.ts, 244-249). -/
def handleCheckIntakeStatus : VoiceResponse :=
  { message := "I can help you check intake form status. Let me transfer you to someone who can look that up for you.",
    success := false }

/-- `CommandProcessor.handleGetClientInfo` (command-processor.ts, 251-266). -/
def handleGetClientInfo (env : Env) (cfg : VoiceConfig) (intent : CommandIntent) :
    VoiceResponse × List MutCall :=
  let p := intent.params
  if truthyStr p.clientEmail then
    findClientByEmail env cfg (p.clientEmail.getD "")
  else if truthyStr p.clientName then
    findClientByName env cfg (p.clientName.getD "")
  else
    ({ message := "Which client would you like information about? Please provide their name or email address.",
       success := false }, [])

/-- `CommandProcessor.handleCheckAvailability` (command-processor.ts, 268-273). -/
def handleCheckAvailability : VoiceResponse :=
  { message := "I can help you check availability. Let me transfer you to our scheduling team who can see all available time slots.",
    success := false }

/-- `CommandProcessor.handleUnknownCommand` (command-processor.ts, 275-300). -/
def handleUnknownCommand (transcript : String) : VoiceResponse :=
  if matchesPatterns (jsLower transcript)
      ["hello", "hi", "hey", "good morning", "good afternoon"] then
    { message := "Hello! I'm here to help with scheduling appointments, finding client information, and sending intake forms. How can I assist you today?",
      success := true }
  else if matchesPatterns (jsLower transcript)
      ["help", "what can you do", "how do you work"] then
    { message := "I can help you schedule appointments, find client information, check today's schedule, send intake forms, and cancel appointments. What would you like to do?",
      success := true }
  else
    { message := "I'm not sure how to help with that. I can schedule appointments, find clients, check schedules, or send intake forms. What would you like me to do?",
      success := false }

/-- `CommandProcessor.processCommand` (command-processor.ts, 10-44). -/
def processCommand (env : Env) (cfg : VoiceConfig) (transcript : String) :
    VoiceResponse × List MutCall :=
  let intent := extractIntent transcript
  match intent.action with
  | .SCHEDULE_APPOINTMENT => handleScheduleAppointment env cfg intent
  | .CANCEL_APPOINTMENT => handleCancelAppointment env cfg intent
  | .RESCHEDULE_APPOINTMENT => (handleRescheduleAppointment, [])
  | .FIND_CLIENT => handleFindClient env cfg intent
  | .CHECK_APPOINTMENTS => handleCheckAppointments env cfg intent
  | .SEND_INTAKE_FORM => handleSendIntakeForm env cfg intent
  | .CHECK_INTAKE_STATUS => (handleCheckIntakeStatus, [])
  | .GET_CLIENT_INFO => handleGetClientInfo env cfg intent
  | .CHECK_AVAILABILITY => (handleCheckAvailability, [])
  | .UPDATE_CLIENT_INFO => (handleUnknownCommand transcript, [])
  | .UNKNOWN => (handleUnknownCommand transcript, [])

/-! ### Theorems -/

/-- A string append with a non-empty left part is non-empty. -/
theorem append_ne_empty {a : String} (b : String) (h : a ≠ "") : a ++ b ≠ "" := by
  intro hab
  apply h
  have hd : a.data ++ b.data = [] := by
    simpa [String.data_append] using congrArg String.data hab
  cases a
  simp_all

/-- Every branch of `findClientByName` speaks a non-empty message. -/
theorem msg_findClientByName (env : Env) (cfg : VoiceConfig) (name : String) :
    (findClientByName env cfg name).1.message ≠ "" := by
  unfold findClientByName
  dsimp only
  repeat' split
  all_goals (try dsimp only)
  all_goals repeat first | decide | apply append_ne_empty

/-- Every branch of `findClientByEmail` speaks a non-empty message. -/
theorem msg_findClientByEmail (env : Env) (cfg : VoiceConfig) (em : String) :
    (findClientByEmail env cfg em).1.message ≠ "" := by
  unfold findClientByEmail
  dsimp only
  repeat' split
  all_goals (try dsimp only)
  all_goals repeat first | decide | apply append_ne_empty

/-- Every branch of `scheduleAppointment` speaks a non-empty message. -/
theorem msg_scheduleAppointment (env : Env) (cfg : VoiceConfig) (a b : String)
    (c d : Option String) : (scheduleAppointment env cfg a b c d).1.message ≠ "" := by
  unfold scheduleAppointment
  dsimp only
  repeat' split
  all_goals (try dsimp only)
  all_goals repeat first | decide | apply append_ne_empty

/-- Every branch of `getUpcomingAppointments` speaks a non-empty message. -/
theorem msg_getUpcomingAppointments (env : Env) (cfg : VoiceConfig) (date : Option String) :
    (getUpcomingAppointments env cfg date).1.message ≠ "" := by
  unfold getUpcomingAppointments
  dsimp only
  repeat' split
  all_goals (try dsimp only)
  all_goals repeat first | decide | apply append_ne_empty

/-- Every branch of `cancelAppointment` speaks a non-empty message. -/
theorem msg_cancelAppointment (env : Env) (cfg : VoiceConfig) (id : String)
    (r : Option String) : (cancelAppointment env cfg id r).1.message ≠ "" := by
  unfold cancelAppointment
  dsimp only
  repeat' split
  all_goals (try dsimp only)
  all_goals repeat first | decide | apply append_ne_empty

/-- Every branch of `sendIntakeForm` speaks a non-empty message. -/
theorem msg_sendIntakeForm (env : Env) (cfg : VoiceConfig) (em : String)
    (q : Option String) : (sendIntakeForm env cfg em q).1.message ≠ "" := by
  unfold sendIntakeForm
  dsimp only
  repeat' split
  all_goals (try dsimp only)
  all_goals repeat first | decide | apply append_ne_empty

/-- C1: for every transcript (and every collaborator environment and
configuration), `processCommand` is a total function producing exactly one
`VoiceResponse`, and its `message` is a non-empty string.  Totality of the
Lean function models "always resolves, never rejects"; collaborator errors
are part of `env` and are caught inside. -/
theorem processCommand_message_nonempty (env : Env) (cfg : VoiceConfig)
    (transcript : String) : (processCommand env cfg transcript).1.message ≠ "" := by
  unfold processCommand handleScheduleAppointment handleCancelAppointment
    handleRescheduleAppointment handleFindClient handleCheckAppointments
    handleSendIntakeForm handleCheckIntakeStatus handleGetClientInfo
    handleCheckAvailability handleUnknownCommand
  dsimp only
  repeat' split
  all_goals (try dsimp only)
  all_goals first
    | apply msg_scheduleAppointment
    | apply msg_cancelAppointment
    | apply msg_findClientByEmail
    | apply msg_findClientByName
    | apply msg_getUpcomingAppointments
    | apply msg_sendIntakeForm
    | (repeat first | decide | apply append_ne_empty)

/-- C3: `isBusinessHours` is true iff the date's weekday is in the configured
day set and its minute-of-day lies in the half-open interval `[start, end)`;
in particular, at minute-of-day = end it is false.  `st`/`en` are the parsed
minute values of the configured `"HH:MM"` strings. -/
theorem isBusinessHours_iff (cfg : VoiceConfig) (d : JSDate) (st en : Int)
    (hs : hhmmMinutes cfg.businessHours.start = some st)
    (he : hhmmMinutes cfg.businessHours.«end» = some en) :
    isBusinessHours cfg d = true ↔
      (d.weekday ∈ cfg.businessHours.days ∧
        st ≤ (d.hours * 60 + d.minutes : Int) ∧ ((d.hours * 60 + d.minutes : Int) < en)) := by
  unfold isBusinessHours
  rw [hs, he]
  simp [and_assoc]

/-- Monday 17:00, the end boundary of the default business hours. -/
def bdryDate : JSDate := ⟨1, 17, 0, ""⟩

/-- C3 witness: the default configuration parses to 540/1020 minutes, and at
the end boundary (Monday 17:00) the check is false, as the biconditional
demands. -/
theorem isBusinessHours_iff_witness :
    hhmmMinutes ({} : VoiceConfig).businessHours.start = some 540 ∧
    hhmmMinutes ({} : VoiceConfig).businessHours.«end» = some 1020 ∧
    isBusinessHours {} bdryDate = false ∧
    (isBusinessHours {} bdryDate = true ↔
      (bdryDate.weekday ∈ ({} : VoiceConfig).businessHours.days ∧
        (540 : Int) ≤ (bdryDate.hours * 60 + bdryDate.minutes : Int) ∧
        ((bdryDate.hours * 60 + bdryDate.minutes : Int) < 1020))) :=
  ⟨by decide, by decide, by decide,
    isBusinessHours_iff {} bdryDate 540 1020 (by decide) (by decide)⟩

/-- The spec's category/trigger table in its declared priority order. -/
def intentTable : List (CmdAction × List String) :=
  [(.SCHEDULE_APPOINTMENT, ["schedule", "book", "make an appointment", "set up", "arrange"]),
   (.CANCEL_APPOINTMENT, ["cancel", "delete", "remove", "cancel appointment"]),
   (.RESCHEDULE_APPOINTMENT, ["reschedule", "move", "change", "reschedule appointment"]),
   (.FIND_CLIENT, ["find", "look up", "search for", "find client", "look for"]),
   (.CHECK_APPOINTMENTS, ["check appointments", "show appointments", "list appointments",
      "what appointments", "appointments today", "schedule for"]),
   (.SEND_INTAKE_FORM, ["send form", "intake form", "send intake", "questionnaire"]),
   (.CHECK_INTAKE_STATUS, ["check intake", "intake status", "form status", "completed form"]),
   (.GET_CLIENT_INFO, ["client info", "client information", "tell me about", "client details"]),
   (.CHECK_AVAILABILITY, ["available", "availability", "free time", "open slots"])]

/-- Spec-side classifier: the first category in the table any of whose
trigger phrases occurs as a substring of the normalized text. -/
def specFirstCategory (text : String) : Option CmdAction :=
  (intentTable.find? fun e => e.2.any fun pat => strIncludes text pat).map Prod.fst

/-- C4: `extractIntent` evaluates the categories in the fixed declared order
over the lowercased, trimmed transcript, returns the first category with a
substring-matching trigger phrase, and returns UNKNOWN with confidence 0
when no trigger phrase of any category occurs. -/
theorem extractIntent_spec (transcript : String) :
    (extractIntent transcript).action =
      (specFirstCategory (jsTrim (jsLower transcript))).getD .UNKNOWN ∧
    (specFirstCategory (jsTrim (jsLower transcript)) = none →
      (extractIntent transcript).action = .UNKNOWN ∧
        (extractIntent transcript).confidence = 0) := by
  unfold extractIntent specFirstCategory intentTable matchesPatterns
  dsimp only
  repeat' split
  all_goals simp only [Bool.not_eq_true] at *
  all_goals simp only [List.find?, *]
  all_goals simp

/-- C4 witness: instantiated at a transcript with no trigger phrase, giving
the UNKNOWN/confidence-0 case concretely. -/
theorem extractIntent_spec_witness :
    specFirstCategory (jsTrim (jsLower "zzz")) = none ∧
    (extractIntent "zzz").action = .UNKNOWN ∧
    (extractIntent "zzz").confidence = 0 :=
  ⟨by decide, (extractIntent_spec "zzz").2 (by decide)⟩

/-- C5 counterexample: for an input that is not exactly 10 digits the code
speaks every *character* (including the hyphen), while the claim's fallback
speaks only the digits; they differ on "555-1234". -/
theorem formatPhone_claim_cex :
    formatPhoneForSpeech "555-1234" = "5 5 5 - 1 2 3 4" ∧
    claimPhoneFormat "555-1234" = "5 5 5 1 2 3 4" ∧
    formatPhoneForSpeech "555-1234" ≠ claimPhoneFormat "555-1234" := by
  refine ⟨by decide, by decide, by decide⟩

/-- `String.intercalate` over a three-element list. -/
theorem intercalate3 (s a b c : String) :
    String.intercalate s [a, b, c] = a ++ s ++ b ++ s ++ c := rfl

/-- Taking 4 of a 10-element list after dropping 6 takes everything. -/
theorem take4_drop6 {l : List Char} (h : l.length = 10) : (l.drop 6).take 4 = l.drop 6 :=
  List.take_of_length_le (by simp [h])

/-- C5 (amended): with exactly 10 digits after stripping non-digits the
result groups them 3-3-4, digits spoken individually, groups separated by
", " (so "5551234567" maps as claimed); otherwise every *character* of the
input is spoken individually with no grouping. -/
theorem formatPhone_amended (phone : String) :
    formatPhoneForSpeech phone = amendedPhoneFormat phone ∧
    formatPhoneForSpeech "5551234567" = "5 5 5, 1 2 3, 4 5 6 7" := by
  constructor
  · unfold formatPhoneForSpeech amendedPhoneFormat
    by_cases h : (phone.data.filter Char.isDigit).length = 10
    · rw [if_pos (by simp [h]), if_pos h, intercalate3, take4_drop6 h, List.drop_take]
    · rw [if_neg (by simpa using h), if_neg h]
      rfl
  · decide

/-! ### Concrete environments used by the witnesses -/

/-- A concrete environment: `now` is a Monday 10:00, the platform date
parser accepts nothing (as JS `new Date` on free-form phrases), and every
collaborator call fails. -/
def testEnvBase : Env :=
  { now := ⟨1, 10, 0, "2026-10-12"⟩
    plus30Iso := "2026-11-11"
    nextDay := fun d => { d with weekday := (d.weekday + 1) % 7 }
    jsDateParse := fun _ => none
    getTimeSec := fun _ => 0
    localeDateTime := fun s => s
    localeTime := fun s => s
    listClients := fun _ => .error ()
    getClientByEmail := fun _ => .error ()
    listAppointments := fun _ => .error ()
    getAppointment := fun _ => .error ()
    createAppointment := fun _ => .error ()
    cancelAppointment := fun _ _ => .error ()
    getSettings := .error ()
    listQuestionnaireTemplates := .error ()
    listPractitioners := .error ()
    sendQuestionnaire := fun _ => .error () }

/-- A configuration with a transfer number. -/
def cfgT : VoiceConfig := { transferNumber := some "5551234567" }

/-- A client on record. -/
def clientA : Client := ⟨1, "John Smith", "js@example.com", none⟩

/-- A second client with a similar name. -/
def clientB : Client := ⟨2, "John Smithe", "js2@example.com", none⟩

/-- Environment whose client search returns two matches. -/
def envTwoMatches : Env := { testEnvBase with listClients := fun _ => .ok [clientA, clientB] }

/-- Environment whose client search returns exactly one match. -/
def envOneMatch : Env := { testEnvBase with listClients := fun _ => .ok [clientA] }

/-- Scheduling settings with one practitioner, one service, one location. -/
def failSettings : ApptSettings := ⟨[⟨"p1", "p@x.com", "Dr P"⟩], [⟨"s1", "Therapy"⟩], [⟨2⟩]⟩

/-- Environment where everything up to appointment creation succeeds and the
creation call itself fails. -/
def envCreateErr : Env :=
  { testEnvBase with
    listClients := fun _ => .ok [clientA]
    getSettings := .ok failSettings }

/-- A confirmed afternoon appointment. -/
def apptA : Appointment := ⟨"a1", 1, "John Smith", "Dr P", 200, "2026-10-12T15:00:00Z", "Confirmed"⟩

/-- A confirmed morning appointment (earlier start than `apptA`). -/
def apptB : Appointment := ⟨"a2", 2, "Mary Jones", "Dr P", 100, "2026-10-12T09:00:00Z", "Confirmed"⟩

/-- Environment whose appointment listing returns two appointments out of
start-time order. -/
def envAppts : Env := { testEnvBase with listAppointments := fun _ => .ok [apptA, apptB] }

/-- Environment whose appointment listing returns no appointments. -/
def envNoAppts : Env := { testEnvBase with listAppointments := fun _ => .ok [] }

/-- Environment where the appointment lookup succeeds and the cancel call
itself fails. -/
def envCancelErr : Env := { testEnvBase with getAppointment := fun _ => .ok (some apptA) }

/-- C2: on "schedule John Smith for tomorrow at 3 PM" the classifier yields
SCHEDULE_APPOINTMENT, but the extracted client name is the lowercased
"john smith" (not "John Smith"), the extracted date/time phrase is just
"tomorrow" — the `/tomorrow/` pattern precedes the time pattern in
`extractDateTime` and `match[0]` drops "at 3 PM" — and the resolver then
fails on "tomorrow" (whose platform parse is Invalid Date), instead of
resolving to tomorrow 15:00 as the claim states. -/
theorem c2_eval (env : Env) (h : env.jsDateParse "tomorrow" = none) :
    (extractIntent "schedule John Smith for tomorrow at 3 PM").action = .SCHEDULE_APPOINTMENT ∧
    (extractIntent "schedule John Smith for tomorrow at 3 PM").params.clientName = some "john smith" ∧
    (extractIntent "schedule John Smith for tomorrow at 3 PM").params.dateTime = some "tomorrow" ∧
    parseDateTime env "tomorrow" = none := by
  refine ⟨by decide, by decide, by decide, ?_⟩
  simp only [parseDateTime, show jsLower "tomorrow" = "tomorrow" from by decide,
    show strIncludes "tomorrow" "tomorrow" = true from by decide,
    show extractTime "tomorrow" = none from by decide,
    show strIncludes "tomorrow" "today" = false from by decide,
    if_true, if_false, Option.map_none']
  exact h

/-- C2 witness: the evaluation instantiated in the concrete environment. -/
theorem c2_eval_witness :
    testEnvBase.jsDateParse "tomorrow" = none ∧
    ((extractIntent "schedule John Smith for tomorrow at 3 PM").action = .SCHEDULE_APPOINTMENT ∧
    (extractIntent "schedule John Smith for tomorrow at 3 PM").params.clientName = some "john smith" ∧
    (extractIntent "schedule John Smith for tomorrow at 3 PM").params.dateTime = some "tomorrow" ∧
    parseDateTime testEnvBase "tomorrow" = none) :=
  ⟨rfl, c2_eval testEnvBase rfl⟩

/-- C6 counterexample: when the client search collaborator call fails and a
transfer number is configured, `findClientByName` returns success=false but
does NOT attach the transfer number — refuting "transfer number attached
whenever one is configured". -/
theorem c6_cex :
    cfgT.transferNumber = some "5551234567" ∧
    testEnvBase.listClients "John" = .error () ∧
    (findClientByName testEnvBase cfgT "John").1.success = false ∧
    (findClientByName testEnvBase cfgT "John").1.transferNumber = none := by
  refine ⟨rfl, rfl, by decide, by decide⟩

/-- C6 (amended): for every collaborator error at every call site of the six
operations, the error is never propagated (the operations are total) and the
operation still returns exactly one VoiceResponse.  An error reaching the
operation's own catch handler yields success=false with a spoken message;
the configured transfer number is attached only by the scheduleAppointment,
cancelAppointment and sendIntakeForm handlers, NOT by findClientByName,
findClientByEmail or getUpcomingAppointments (and the find-by-email handler
reuses the not-found wording).  Exception: a listAppointments failure inside
the getNextClientAppointment enrichment during find-by-name/find-by-email is
swallowed by its inner catch, so the lookup degrades to "no next
appointment" and the operation returns success=true.  The conjuncts cover,
in order: find-by-name search failure; find-by-name with a swallowed inner
failure; find-by-email lookup failure; find-by-email with a swallowed inner
failure; schedule failing at the client search, at getSettings, and at
createAppointment (the issued create call is traced); list-appointments
failure; cancel failing at the lookup and at the cancel call itself; and
send-intake-form failing at the client lookup, at listQuestionnaireTemplates,
at listPractitioners, and at sendQuestionnaire. -/
theorem c6_amended (env : Env) (cfg : VoiceConfig) (name em dts aid : String)
    (sn pe reason qn : Option String) (c : Client) (d : JSDate)
    (settings : ApptSettings) (pr : Practitioner) (sv : Service) (appt : Appointment)
    (qs : List Questionnaire) (q : Questionnaire) (prs : List Practitioner)
    (prx : Practitioner) :
    (env.listClients name = .error () →
      findClientByName env cfg name =
        ({ message := "I'm sorry, I encountered an error while searching for that client. Please try again.",
           success := false, transferNumber := none, data := none }, [])) ∧
    (env.listClients name = .ok [c] →
      env.listAppointments ⟨env.now.isoDate, env.plus30Iso, none⟩ = .error () →
      (findClientByName env cfg name).1.success = true ∧
      (findClientByName env cfg name).1.data = some (.clientFound c none) ∧
      (findClientByName env cfg name).2 = []) ∧
    (env.getClientByEmail em = .error () →
      findClientByEmail env cfg em =
        ({ message := "I couldn't find a client with email " ++ em ++
             ". Would you like me to create a new client record?",
           success := false, transferNumber := none, data := none }, [])) ∧
    (env.getClientByEmail em = .ok (some c) →
      env.listAppointments ⟨env.now.isoDate, env.plus30Iso, none⟩ = .error () →
      findClientByEmail env cfg em =
        ({ message := "Found " ++ c.Name ++ " with email " ++ em,
           success := true, transferNumber := none,
           data := some (.clientFound c none) }, [])) ∧
    (env.listClients name = .error () →
      scheduleAppointment env cfg name dts sn pe =
        ({ message := "I'm sorry, I couldn't schedule that appointment. Let me transfer you to someone who can help.",
           success := false, transferNumber := cfg.transferNumber, data := none }, [])) ∧
    (env.listClients name = .ok [c] →
      parseDateTime env dts = some d →
      isBusinessHours cfg d = true →
      env.getSettings = .error () →
      scheduleAppointment env cfg name dts sn pe =
        ({ message := "I'm sorry, I couldn't schedule that appointment. Let me transfer you to someone who can help.",
           success := false, transferNumber := cfg.transferNumber, data := none }, [])) ∧
    (env.listClients name = .ok [c] →
      parseDateTime env dts = some d →
      isBusinessHours cfg d = true →
      env.getSettings = .ok settings →
      (if truthyStr pe then settings.Practitioners.find? fun p => p.Email == pe.getD ""
       else if truthyStr cfg.defaultPractitionerEmail then
         settings.Practitioners.find? fun p => p.Email == cfg.defaultPractitionerEmail.getD ""
       else settings.Practitioners.head?) = some pr →
      (if truthyStr sn then
         settings.Services.find? fun s => strIncludes (jsLower s.Name) (jsLower (sn.getD ""))
       else if truthyStr cfg.defaultServiceId then
         settings.Services.find? fun s => s.Id == cfg.defaultServiceId.getD ""
       else settings.Services.head?) = some sv →
      env.createAppointment ⟨c.ClientId, pr.Id, sv.Id, locationIdOf cfg settings,
        env.getTimeSec d, "WaitingConfirmation", true, "Email"⟩ = .error () →
      scheduleAppointment env cfg name dts sn pe =
        ({ message := "I'm sorry, I couldn't schedule that appointment. Let me transfer you to someone who can help.",
           success := false, transferNumber := cfg.transferNumber, data := none },
         [MutCall.createAppointment ⟨c.ClientId, pr.Id, sv.Id, locationIdOf cfg settings,
            env.getTimeSec d, "WaitingConfirmation", true, "Email"⟩])) ∧
    (env.listAppointments ⟨env.now.isoDate, env.now.isoDate, some "Confirmed"⟩ = .error () →
      getUpcomingAppointments env cfg none =
        ({ message := "I'm sorry, I couldn't retrieve the appointment schedule right now. Please try again.",
           success := false, transferNumber := none, data := none }, [])) ∧
    (env.getAppointment aid = .error () →
      cancelAppointment env cfg aid reason =
        ({ message := "I'm sorry, I couldn't cancel that appointment. Please try again or contact our office directly.",
           success := false, transferNumber := cfg.transferNumber, data := none }, [])) ∧
    (env.getAppointment aid = .ok (some appt) →
      env.cancelAppointment aid reason = .error () →
      cancelAppointment env cfg aid reason =
        ({ message := "I'm sorry, I couldn't cancel that appointment. Please try again or contact our office directly.",
           success := false, transferNumber := cfg.transferNumber, data := none },
         [MutCall.cancelAppointment aid reason])) ∧
    (env.getClientByEmail em = .error () →
      sendIntakeForm env cfg em qn =
        ({ message := "I'm sorry, I couldn't send the intake form. Please try again or contact our office.",
           success := false, transferNumber := cfg.transferNumber, data := none }, [])) ∧
    (env.getClientByEmail em = .ok (some c) →
      env.listQuestionnaireTemplates = .error () →
      sendIntakeForm env cfg em qn =
        ({ message := "I'm sorry, I couldn't send the intake form. Please try again or contact our office.",
           success := false, transferNumber := cfg.transferNumber, data := none }, [])) ∧
    (env.getClientByEmail em = .ok (some c) →
      env.listQuestionnaireTemplates = .ok qs →
      qs.isEmpty = false →
      (if truthyStr qn then
         qs.find? fun qq => strIncludes (jsLower qq.Name) (jsLower (qn.getD ""))
       else qs.head?) = some q →
      env.listPractitioners = .error () →
      sendIntakeForm env cfg em qn =
        ({ message := "I'm sorry, I couldn't send the intake form. Please try again or contact our office.",
           success := false, transferNumber := cfg.transferNumber, data := none }, [])) ∧
    (env.getClientByEmail em = .ok (some c) →
      env.listQuestionnaireTemplates = .ok qs →
      qs.isEmpty = false →
      (if truthyStr qn then
         qs.find? fun qq => strIncludes (jsLower qq.Name) (jsLower (qn.getD ""))
       else qs.head?) = some q →
      env.listPractitioners = .ok prs →
      (if truthyStr cfg.defaultPractitionerEmail then
         prs.find? fun p => p.Email == cfg.defaultPractitionerEmail.getD ""
       else prs.head?) = some prx →
      env.sendQuestionnaire ⟨c.ClientId, q.Id, prx.Id⟩ = .error () →
      sendIntakeForm env cfg em qn =
        ({ message := "I'm sorry, I couldn't send the intake form. Please try again or contact our office.",
           success := false, transferNumber := cfg.transferNumber, data := none },
         [MutCall.sendQuestionnaire ⟨c.ClientId, q.Id, prx.Id⟩])) := by
  refine ⟨?_, ?_, ?_, ?_, ?_, ?_, ?_, ?_, ?_, ?_, ?_, ?_, ?_, ?_⟩
  · intro h; unfold findClientByName; rw [h]
  · intro h1 h2
    have hg : getNextClientAppointment env c.ClientId = none := by
      unfold getNextClientAppointment; rw [h2]
    unfold findClientByName
    rw [h1]
    dsimp only
    rw [hg]
    exact ⟨rfl, rfl, rfl⟩
  · intro h; unfold findClientByEmail; rw [h]
  · intro h1 h2
    have hg : getNextClientAppointment env c.ClientId = none := by
      unfold getNextClientAppointment; rw [h2]
    unfold findClientByEmail
    rw [h1]
    dsimp only
    rw [hg]
  · intro h; unfold scheduleAppointment; rw [h]
  · intro h1 h2 h3 h4
    unfold scheduleAppointment
    rw [h1]
    dsimp only
    rw [h2]
    dsimp only
    rw [h3]
    simp only [Bool.not_true, Bool.false_eq_true, if_false]
    rw [h4]
  · intro h1 h2 h3 h4 hpr hsv hcr
    unfold scheduleAppointment
    rw [h1]
    dsimp only
    rw [h2]
    dsimp only
    rw [h3]
    simp only [Bool.not_true, Bool.false_eq_true, if_false]
    rw [h4]
    dsimp only
    rw [hpr]
    dsimp only
    rw [hsv]
    dsimp only
    rw [hcr]
  · intro h
    unfold getUpcomingAppointments
    dsimp only
    rw [show truthyStr none = false from rfl]
    simp only [Bool.false_eq_true, if_false]
    rw [h]
  · intro h; unfold cancelAppointment; rw [h]
  · intro h1 h2
    unfold cancelAppointment
    rw [h1]
    dsimp only
    rw [h2]
  · intro h; unfold sendIntakeForm; rw [h]
  · intro h1 h2
    unfold sendIntakeForm
    rw [h1]
    dsimp only
    rw [h2]
  · intro h1 h2 h3 h4 h5
    unfold sendIntakeForm
    rw [h1]
    dsimp only
    rw [h2]
    dsimp only
    rw [h3]
    simp only [Bool.false_eq_true, if_false]
    rw [h4]
    dsimp only
    rw [h5]
  · intro h1 h2 h3 h4 h5 h6 h7
    unfold sendIntakeForm
    rw [h1]
    dsimp only
    rw [h2]
    dsimp only
    rw [h3]
    simp only [Bool.false_eq_true, if_false]
    rw [h4]
    dsimp only
    rw [h5]
    dsimp only
    rw [h6]
    dsimp only
    rw [h7]

/-- C6 witness: a failing search (apology, no transfer number despite one
being configured), a swallowed inner failure (success=true), a mid-workflow
createAppointment failure (transfer-eligible apology, create call traced),
and a failing cancel call (transfer-eligible apology, cancel call traced). -/
theorem c6_amended_witness :
    findClientByName testEnvBase cfgT "John" =
      ({ message := "I'm sorry, I encountered an error while searching for that client. Please try again.",
         success := false, transferNumber := none, data := none }, []) ∧
    ((findClientByName envOneMatch cfgT "John").1.success = true ∧
     (findClientByName envOneMatch cfgT "John").1.data = some (.clientFound clientA none) ∧
     (findClientByName envOneMatch cfgT "John").2 = []) ∧
    scheduleAppointment envCreateErr cfgT "John" "tomorrow at 10 am" none none =
      ({ message := "I'm sorry, I couldn't schedule that appointment. Let me transfer you to someone who can help.",
         success := false, transferNumber := cfgT.transferNumber, data := none },
       [MutCall.createAppointment ⟨1, "p1", "s1", 2, 0, "WaitingConfirmation", true, "Email"⟩]) ∧
    cancelAppointment envCancelErr cfgT "a1" none =
      ({ message := "I'm sorry, I couldn't cancel that appointment. Please try again or contact our office directly.",
         success := false, transferNumber := cfgT.transferNumber, data := none },
       [MutCall.cancelAppointment "a1" none]) :=
  ⟨(c6_amended testEnvBase cfgT "John" "e@x.com" "x" "a1" none none none none clientA
      bdryDate failSettings ⟨"p1", "p@x.com", "Dr P"⟩ ⟨"s1", "Therapy"⟩ apptA []
      ⟨"q1", "Intake"⟩ [] ⟨"p1", "p@x.com", "Dr P"⟩).1 rfl,
   (c6_amended envOneMatch cfgT "John" "e@x.com" "x" "a1" none none none none clientA
      bdryDate failSettings ⟨"p1", "p@x.com", "Dr P"⟩ ⟨"s1", "Therapy"⟩ apptA []
      ⟨"q1", "Intake"⟩ [] ⟨"p1", "p@x.com", "Dr P"⟩).2.1 rfl rfl,
   (c6_amended envCreateErr cfgT "John" "e@x.com" "tomorrow at 10 am" "a1" none none none none
      clientA ⟨2, 10, 0, "2026-10-12"⟩ failSettings ⟨"p1", "p@x.com", "Dr P"⟩ ⟨"s1", "Therapy"⟩
      apptA [] ⟨"q1", "Intake"⟩ [] ⟨"p1", "p@x.com", "Dr P"⟩).2.2.2.2.2.2.1
      rfl (by decide) (by decide) rfl (by decide) (by decide) rfl,
   (c6_amended envCancelErr cfgT "John" "e@x.com" "x" "a1" none none none none clientA
      bdryDate failSettings ⟨"p1", "p@x.com", "Dr P"⟩ ⟨"s1", "Therapy"⟩ apptA []
      ⟨"q1", "Intake"⟩ [] ⟨"p1", "p@x.com", "Dr P"⟩).2.2.2.2.2.2.2.2.2.1 rfl rfl⟩

/-- C7: when the client search returns two or more matches, both
`findClientByName` and `scheduleAppointment` answer success=false with a
message listing at most the first 3 matched names, the find-by-name data
holds exactly the matched clients, and the mutation trace of both
invocations is empty (no createAppointment/cancelAppointment/sendQuestionnaire). -/
theorem c7_multi (env : Env) (cfg : VoiceConfig) (name dts : String)
    (sn pe : Option String) (c1 c2 : Client) (rest : List Client)
    (h : env.listClients name = .ok (c1 :: c2 :: rest)) :
    findClientByName env cfg name =
      ({ message := "I found " ++ toString (c1 :: c2 :: rest).length ++
           " clients with that name: " ++
           String.intercalate ", " (((c1 :: c2 :: rest).take 3).map (·.Name)) ++
           ". Could you be more specific or provide their email address?",
         success := false, transferNumber := none,
         data := some (.«matches» (c1 :: c2 :: rest)) }, []) ∧
    scheduleAppointment env cfg name dts sn pe =
      ({ message := "I found multiple clients: " ++
           String.intercalate ", " (((c1 :: c2 :: rest).take 3).map (·.Name)) ++
           ". Could you be more specific or provide their email?",
         success := false, transferNumber := none, data := none }, []) := by
  constructor
  · unfold findClientByName; rw [h]
  · unfold scheduleAppointment; rw [h]

/-- C7 witness: two matching clients — the message lists both names, the
data holds exactly those two, and no mutating call is traced. -/
theorem c7_multi_witness :
    envTwoMatches.listClients "John" = .ok [clientA, clientB] ∧
    (findClientByName envTwoMatches {} "John" =
      ({ message := "I found " ++ toString ([clientA, clientB] : List Client).length ++
           " clients with that name: " ++
           String.intercalate ", " ((([clientA, clientB] : List Client).take 3).map (·.Name)) ++
           ". Could you be more specific or provide their email address?",
         success := false, transferNumber := none,
         data := some (.«matches» [clientA, clientB]) }, []) ∧
     scheduleAppointment envTwoMatches {} "John" "tomorrow at 10 am" none none =
      ({ message := "I found multiple clients: " ++
           String.intercalate ", " ((([clientA, clientB] : List Client).take 3).map (·.Name)) ++
           ". Could you be more specific or provide their email?",
         success := false, transferNumber := none, data := none }, [])) :=
  ⟨rfl, c7_multi envTwoMatches {} "John" "tomorrow at 10 am" none none clientA clientB [] rfl⟩

/-- C8: when the client name matches exactly one client and the date/time
phrase does not resolve, `scheduleAppointment` answers success=false with
the clarifying message requesting a valid format, and its mutation trace is
empty — in particular no createAppointment call is issued. -/
theorem c8_unparsable (env : Env) (cfg : VoiceConfig) (name dts : String)
    (sn pe : Option String) (c : Client)
    (h1 : env.listClients name = .ok [c])
    (h2 : parseDateTime env dts = none) :
    scheduleAppointment env cfg name dts sn pe =
      ({ message := "I couldn't understand that date and time. Could you please say it in a format like 'tomorrow at 3 PM' or 'December 15th at 10:30 AM'?",
         success := false, transferNumber := none, data := none }, []) := by
  unfold scheduleAppointment
  rw [h1]
  dsimp only
  rw [h2]

/-- C8 witness: one matching client and the unresolvable phrase "gibberish". -/
theorem c8_unparsable_witness :
    envOneMatch.listClients "John" = .ok [clientA] ∧
    parseDateTime envOneMatch "gibberish" = none ∧
    scheduleAppointment envOneMatch {} "John" "gibberish" none none =
      ({ message := "I couldn't understand that date and time. Could you please say it in a format like 'tomorrow at 3 PM' or 'December 15th at 10:30 AM'?",
         success := false, transferNumber := none, data := none }, []) :=
  ⟨rfl, by decide,
   c8_unparsable envOneMatch {} "John" "gibberish" none none clientA rfl (by decide)⟩

/-- `startLE` is transitive. -/
theorem startLE_trans (a b c : Appointment) : startLE a b → startLE b c → startLE a c := by
  simp only [startLE, decide_eq_true_eq]
  omega

/-- `startLE` is total. -/
theorem startLE_total (a b : Appointment) : startLE a b || startLE b a := by
  simp only [startLE, Bool.or_eq_true, decide_eq_true_eq]
  omega

/-- The start-date sort produces a list ordered by start time. -/
theorem sortByStart_sorted (l : List Appointment) :
    (sortByStart l).Pairwise (fun a b => a.StartDate ≤ b.StartDate) := by
  have h := @List.sorted_mergeSort _ startLE startLE_trans startLE_total l
  exact h.imp (by simp [startLE])

/-- The start-date sort is a permutation of its input. -/
theorem sortByStart_perm (l : List Appointment) : List.Perm (sortByStart l) l :=
  List.mergeSort_perm l startLE

/-- C9: with no date argument `getUpcomingAppointments` queries the single
day of the current instant with status Confirmed; with zero results it
answers success=true, a no-confirmed-appointments message and an empty list
in the data; otherwise it renders the first 5 of the appointments sorted by
start time ascending as "time - client with practitioner", comma-joined. -/
theorem c9_today (env : Env) (cfg : VoiceConfig) (appts : List Appointment)
    (h : env.listAppointments ⟨env.now.isoDate, env.now.isoDate, some "Confirmed"⟩ = .ok appts) :
    (appts = [] →
      getUpcomingAppointments env cfg none =
        ({ message := "There are no confirmed appointments scheduled for today.",
           success := true, transferNumber := none, data := some (.appointments []) }, [])) ∧
    (appts ≠ [] →
      getUpcomingAppointments env cfg none =
        ({ message := "Here are the confirmed appointments for today: " ++
             String.intercalate ", " (((sortByStart appts).take 5).map fun apt =>
               formatTimeForSpeech env apt.StartDateIso ++ " - " ++ apt.ClientName ++
                 " with " ++ apt.PractitionerName),
           success := true, transferNumber := none,
           data := some (.appointments (sortByStart appts)) }, []) ∧
      ((sortByStart appts).take 5).Pairwise (fun a b => a.StartDate ≤ b.StartDate) ∧
      List.Perm (sortByStart appts) appts ∧
      ((sortByStart appts).take 5).length ≤ 5) := by
  constructor
  · intro he
    subst he
    unfold getUpcomingAppointments
    dsimp only
    rw [show truthyStr none = false from rfl]
    simp only [Bool.false_eq_true, if_false]
    rw [h]
    rfl
  · intro hne
    refine ⟨?_, ((sortByStart_sorted appts).sublist (List.take_sublist _ _) : _),
      sortByStart_perm appts, List.length_take_le _ _⟩
    unfold getUpcomingAppointments
    dsimp only
    rw [show truthyStr none = false from rfl]
    simp only [Bool.false_eq_true, if_false]
    rw [h]
    dsimp only
    rw [if_neg (by simpa [List.isEmpty_iff] using hne)]
    rfl

/-- C9 witness: a day with two out-of-order confirmed appointments and a day
with none. -/
theorem c9_today_witness :
    envAppts.listAppointments ⟨envAppts.now.isoDate, envAppts.now.isoDate, some "Confirmed"⟩ =
      .ok [apptA, apptB] ∧
    getUpcomingAppointments envAppts {} none =
      ({ message := "Here are the confirmed appointments for today: " ++
           String.intercalate ", " (((sortByStart [apptA, apptB]).take 5).map fun apt =>
             formatTimeForSpeech envAppts apt.StartDateIso ++ " - " ++ apt.ClientName ++
               " with " ++ apt.PractitionerName),
         success := true, transferNumber := none,
         data := some (.appointments (sortByStart [apptA, apptB])) }, []) ∧
    getUpcomingAppointments envNoAppts {} none =
      ({ message := "There are no confirmed appointments scheduled for today.",
         success := true, transferNumber := none, data := some (.appointments []) }, []) :=
  ⟨rfl, ((c9_today envAppts {} [apptA, apptB] rfl).2 (by decide)).1,
   (c9_today envNoAppts {} [] rfl).1 rfl⟩

/-- `hasPrefixL` agrees with list prefixes. -/
theorem hasPrefixL_iff (l nd : List Char) : hasPrefixL l nd = true ↔ nd <+: l := by
  induction nd generalizing l with
  | nil => simp [hasPrefixL]
  | cons b bs ih =>
    cases l with
    | nil => simp [hasPrefixL]
    | cons a as =>
      show (a == b && hasPrefixL as bs) = true ↔ _
      rw [List.cons_prefix_cons]
      simp only [Bool.and_eq_true, beq_iff_eq, ih]
      constructor
      · rintro ⟨h1, h2⟩; exact ⟨h1.symm, h2⟩
      · rintro ⟨h1, h2⟩; exact ⟨h1.symm, h2⟩

/-- `containsSub` agrees with list infixes. -/
theorem containsSub_iff (hay nd : List Char) : containsSub hay nd = true ↔ nd <:+: hay := by
  induction hay with
  | nil => simp [containsSub, List.isEmpty_iff]
  | cons h t ih =>
    simp [containsSub, hasPrefixL_iff, ih, List.infix_cons_iff]

/-- Trimming yields an infix of the original character list. -/
theorem jsTrim_shrinks (s : String) : (jsTrim s).data <:+: s.data := by
  unfold jsTrim
  have h1 : s.data.dropWhile jsWS <:+ s.data := List.dropWhile_suffix jsWS
  have h2 : ((s.data.dropWhile jsWS).reverse.dropWhile jsWS).reverse <+: s.data.dropWhile jsWS := by
    rw [← List.reverse_suffix]
    have h3 : ((s.data.dropWhile jsWS).reverse.dropWhile jsWS) <:+ (s.data.dropWhile jsWS).reverse :=
      List.dropWhile_suffix jsWS
    simpa using h3
  exact (h2.isInfix).trans h1.isInfix

/-- A substring of the trimmed string is a substring of the original. -/
theorem strIncludes_of_trim (s p : String) (h : strIncludes (jsTrim s) p = true) :
    strIncludes s p = true := by
  unfold strIncludes at *
  rw [containsSub_iff] at *
  exact h.trans (jsTrim_shrinks s)

/-- All trigger phrases of all the classifier's categories, in order. -/
def allTriggers : List String :=
  ["schedule", "book", "make an appointment", "set up", "arrange",
   "cancel", "delete", "remove", "cancel appointment",
   "reschedule", "move", "change", "reschedule appointment",
   "find", "look up", "search for", "find client", "look for",
   "check appointments", "show appointments", "list appointments",
   "what appointments", "appointments today", "schedule for",
   "send form", "intake form", "send intake", "questionnaire",
   "check intake", "intake status", "form status", "completed form",
   "client info", "client information", "tell me about", "client details",
   "available", "availability", "free time", "open slots"]

/-- If no trigger phrase occurs in the lowercased transcript, the classifier
returns UNKNOWN with confidence 0 (the trimmed text has no more substrings
than the untrimmed one). -/
theorem extractIntent_unknown_of_no_trigger (t : String)
    (h : ∀ p ∈ allTriggers, strIncludes (jsLower t) p = false) :
    extractIntent t = { action := .UNKNOWN, params := {}, confidence := 0 } := by
  have h' : ∀ p ∈ allTriggers, strIncludes (jsTrim (jsLower t)) p = false := by
    intro p hp
    cases hq : strIncludes (jsTrim (jsLower t)) p with
    | false => rfl
    | true => exact absurd (strIncludes_of_trim _ p hq) (by simp [h p hp])
  have hcond : ∀ pats : List String, (∀ p ∈ pats, p ∈ allTriggers) →
      matchesPatterns (jsTrim (jsLower t)) pats = false := by
    intro pats hsub
    unfold matchesPatterns
    rw [List.any_eq_false]
    intro p hp
    simp [h' p (hsub p hp)]
  unfold extractIntent
  simp only [hcond ["schedule", "book", "make an appointment", "set up", "arrange"] (by decide),
    hcond ["cancel", "delete", "remove", "cancel appointment"] (by decide),
    hcond ["reschedule", "move", "change", "reschedule appointment"] (by decide),
    hcond ["find", "look up", "search for", "find client", "look for"] (by decide),
    hcond ["check appointments", "show appointments", "list appointments",
      "what appointments", "appointments today", "schedule for"] (by decide),
    hcond ["send form", "intake form", "send intake", "questionnaire"] (by decide),
    hcond ["check intake", "intake status", "form status", "completed form"] (by decide),
    hcond ["client info", "client information", "tell me about", "client details"] (by decide),
    hcond ["available", "availability", "free time", "open slots"] (by decide),
    Bool.false_eq_true, if_false]

/-- C10: a transcript containing no trigger phrase but containing one of the
greeting substrings — even as a fragment inside another word — gets the
greeting response with the capability summary and success=true, not the
generic success=false fallback. -/
theorem c10_greeting (env : Env) (cfg : VoiceConfig) (t : String)
    (h1 : ∀ p ∈ allTriggers, strIncludes (jsLower t) p = false)
    (h2 : matchesPatterns (jsLower t) ["hello", "hi", "hey", "good morning", "good afternoon"] = true) :
    processCommand env cfg t =
      ({ message := "Hello! I'm here to help with scheduling appointments, finding client information, and sending intake forms. How can I assist you today?",
         success := true, transferNumber := none, data := none }, []) := by
  unfold processCommand
  rw [extractIntent_unknown_of_no_trigger t h1]
  dsimp only
  unfold handleUnknownCommand
  rw [if_pos h2]

/-- C10 witness: the transcript "this" contains no trigger phrase, but
contains "hi" as a fragment of the word, and gets the greeting response. -/
theorem c10_greeting_witness :
    (allTriggers.all fun p => !strIncludes (jsLower "this") p) = true ∧
    matchesPatterns (jsLower "this") ["hello", "hi", "hey", "good morning", "good afternoon"] = true ∧
    processCommand testEnvBase {} "this" =
      ({ message := "Hello! I'm here to help with scheduling appointments, finding client information, and sending intake forms. How can I assist you today?",
         success := true, transferNumber := none, data := none }, []) :=
  ⟨by decide, by decide, c10_greeting testEnvBase {} "this" (by decide) (by decide)⟩
